import Mathlib

/-!
# Verification of the anomaly/matching core of the accounting-reconciliation repository

This file gives a shallow embedding of `src/anomaly_detection.py` (the pandas-based
anomaly/matching engine: `find_unmatched_entries`, `detect_duplicates`,
`detect_outliers_zscore`) and proves or refutes the specification's claims about it.

Modelling conventions:
* A pandas `DataFrame` is a column-name list together with a list of rows, each row
  carrying its integer index label (pandas keeps labels through `concat` and uses them
  in `.index.isin(...)` filtering, which matters for the behaviour verified here).
* A cell is a string, an exact rational (idealising the float column values), or `na`
  (pandas `NaN` / missing).  `DataFrame.duplicated` treats `NaN` keys as equal, which
  matches decidable equality on the `na` constructor.
* Float arithmetic is idealised over `ℚ`: `mean`/`std` are exact, and the IEEE
  behaviour of the z-score pipeline at degenerate points (`std = NaN` for a single
  value, `0/0 = NaN`, `x/0 = ±Inf`, comparisons with `NaN` being false) is modelled
  explicitly in `zExceeds`.
* Python exceptions (`KeyError` on a missing column, `TypeError` on non-numeric data)
  become `Except String` results.
-/

namespace AnomalyDetection

/-- A cell of a pandas DataFrame: a string, an (idealised exact) number, or a
missing value (`NaN`). -/
inductive Cell where
  | str (s : String)
  | num (q : ℚ)
  | na
deriving DecidableEq, Repr

/-- A pandas DataFrame: named columns and rows, each row paired with its integer
index label (the pandas index). Row `(i, cs)` has label `i` and cells `cs`, in
column order. -/
structure DFrame where
  cols : List String
  rows : List (Nat × List Cell)
deriving DecidableEq, Repr

/-- `pd.DataFrame()`: the fresh empty frame (no columns, no rows) returned by the
early-exit branches of the source. -/
def emptyDF : DFrame := ⟨[], []⟩

/-- `df.empty` in pandas: true when either axis has length zero. -/
def DFrame.isEmpty (df : DFrame) : Bool := df.rows.isEmpty || df.cols.isEmpty

/-- Look a cell up by column name (`row[c]`): the cell at the position of the
first occurrence of `c` in the column list (column and cell lists walked
together, which is that position when the row matches the columns). -/
def getCell : List String → List Cell → String → Option Cell
  | [], _, _ => none
  | _ :: _, [], _ => none
  | c0 :: cs, x :: xs, c => if c0 = c then some x else getCell cs xs c

/-- Overwrite, in one row, the cell at the first occurrence of column `c`. -/
def setRowCell : List String → List Cell → String → Cell → List Cell
  | [], _, _, _ => []
  | _ :: _, [], _, _ => []
  | c0 :: cs, x :: xs, c, v => if c0 = c then v :: xs else x :: setRowCell cs xs c v

/-- `df[c] = v` for a scalar `v` (as in `df1_copy['_source'] = 'df1'`): overwrite
the column if present, otherwise append it at the end. -/
def setCol (df : DFrame) (c : String) (v : Cell) : DFrame :=
  if df.cols.contains c then
    ⟨df.cols, df.rows.map fun r => (r.1, setRowCell df.cols r.2 c v)⟩
  else ⟨df.cols ++ [c], df.rows.map fun r => (r.1, r.2 ++ [v])⟩

/-- Column union in `pd.concat` order (`join='outer'`, `sort=False`): the first
frame's columns, then the second frame's new columns in order of appearance. -/
def unionCols (c1 c2 : List String) : List String :=
  c1 ++ c2.filter (fun c => !c1.contains c)

/-- Reindex one row to a target column list, filling columns it lacks with `NaN`
(what `pd.concat` does when the frames' column sets differ). -/
def reindexRow (src : List String) (r : List Cell) (cols : List String) : List Cell :=
  cols.map fun c => (getCell src r c).getD Cell.na

/-- `pd.concat([d1, d2])`: outer column union, rows appended, index labels kept. -/
def concatDF (d1 d2 : DFrame) : DFrame :=
  let cols := unionCols d1.cols d2.cols
  ⟨cols, (d1.rows.map fun r => (r.1, reindexRow d1.cols r.2 cols))
         ++ (d2.rows.map fun r => (r.1, reindexRow d2.cols r.2 cols))⟩

/-- The fixed key columns hardcoded at both `duplicated(subset=...)` call sites. -/
def keyCols : List String := ["txn_date", "txn_amount", "txn_description"]

/-- The key columns absent from a column list; pandas raises
`KeyError` naming exactly these when `duplicated(subset=...)` is called. -/
def missingKeyCols (cols : List String) : List String :=
  keyCols.filter (fun c => !cols.contains c)

/-- The key tuple of a row: the values of the key columns, in key-column order
(meaningful once the key columns are all present). -/
def rowKey (cols : List String) (r : List Cell) : List Cell :=
  keyCols.map fun c => (getCell cols r c).getD Cell.na

/-- All key tuples of a frame, in row order. -/
def frameKeys (df : DFrame) : List (List Cell) := df.rows.map fun r => rowKey df.cols r.2

/-- All index labels of a frame, in row order. -/
def frameLabels (df : DFrame) : List Nat := df.rows.map Prod.fst

/-- The `duplicated(subset=keyCols, keep=False)` mask as a function of the key
list: true at a key occurring at least twice. -/
def dupKeyMask (keys : List (List Cell)) : List Bool :=
  keys.map fun k => decide (2 ≤ keys.count k)

/-- `df.duplicated(subset=keyCols, keep=False)`: a Boolean per row, true iff the
row's key tuple occurs at least twice in the frame; `KeyError` (naming the
missing columns) when a key column is absent.  pandas treats `NaN` keys as equal
to each other, which decidable equality on `Cell.na` reproduces. -/
def duplicatedMask (df : DFrame) : Except String (List Bool) :=
  if (missingKeyCols df.cols).isEmpty then Except.ok (dupKeyMask (frameKeys df))
  else Except.error ("KeyError: " ++ String.intercalate ", " (missingKeyCols df.cols))

/-- Keep the elements of `l` at the positions where `m` is true (Boolean-mask
row selection `df[mask]`). -/
def maskFilter (l : List α) (m : List Bool) : List α :=
  (l.zip m).filterMap fun x => if x.2 then some x.1 else none

/-- `df[mask]` for a positional Boolean mask: same columns, masked rows. -/
def filterMask (df : DFrame) (m : List Bool) : DFrame :=
  ⟨df.cols, maskFilter df.rows m⟩

/-- `df[~df.index.isin(labels)]`: drop every row whose index label occurs in
`labels`. -/
def dropLabels (df : DFrame) (labels : List Nat) : DFrame :=
  ⟨df.cols, df.rows.filter fun r => !labels.contains r.1⟩

/-- The marker column the source adds before concatenating. -/
def sourceTag : String := "_source"

/-- `find_unmatched_entries(df1, df2)` from `src/anomaly_detection.py`:
empty-input early exit, copies tagged with a `_source` column, `pd.concat`,
`duplicated(subset=keyCols, keep=False)`, and label-based removal of every row
whose index label belongs to some duplicated row of the concatenation. -/
def find_unmatched_entries (df1 df2 : DFrame) : Except String (DFrame × DFrame) :=
  if df1.isEmpty || df2.isEmpty then Except.ok (emptyDF, emptyDF)
  else
    let d1 := setCol df1 sourceTag (Cell.str "df1")
    let d2 := setCol df2 sourceTag (Cell.str "df2")
    let combined := concatDF d1 d2
    match duplicatedMask combined with
    | Except.error e => Except.error e
    | Except.ok mask =>
      let dupLabels := (combined.rows.zip mask).filterMap
        fun x => if x.2 then some x.1.1 else none
      Except.ok (dropLabels d1 dupLabels, dropLabels d2 dupLabels)

/-- `detect_duplicates(df)`: empty early exit, then
`df[df.duplicated(subset=keyCols, keep=False)]`. -/
def detect_duplicates (df : DFrame) : Except String DFrame :=
  if df.isEmpty then Except.ok emptyDF
  else
    match duplicatedMask df with
    | Except.error e => Except.error e
    | Except.ok mask => Except.ok (filterMask df mask)

/-- The cells of column `c` (`df[c]` as a Series), `none` when the column is
missing (pandas `KeyError`). -/
def colCells (df : DFrame) (c : String) : Option (List Cell) :=
  if df.cols.contains c then some (df.rows.map fun r => (getCell df.cols r.2 c).getD Cell.na)
  else none

/-- True on string cells (a numeric reduction over them raises `TypeError`). -/
def Cell.isStr : Cell → Bool
  | Cell.str _ => true
  | _ => false

/-- The numeric values of a cell list, missing values skipped (pandas
`skipna=True` statistics). -/
def numVals (cells : List Cell) : List ℚ :=
  cells.filterMap fun c => match c with | Cell.num q => some q | _ => none

/-- Exact mean, `Series.mean()` over the non-missing values. -/
def mean (xs : List ℚ) : ℚ := xs.sum / (xs.length : ℚ)

/-- Exact sample variance (`Series.std()` squared, `ddof=1`): `none` models the
`NaN` pandas returns on fewer than two values. -/
def sampleVar (xs : List ℚ) : Option ℚ :=
  if xs.length ≤ 1 then none
  else some ((xs.map fun x => (x - mean xs) ^ 2).sum / ((xs.length : ℚ) - 1))

/-- The comparison `abs((x - mean) / std) > t` of the source, evaluated with IEEE
conventions made explicit over the exact model:
* `var? = none` — `std` is `NaN` (one value): the comparison is false;
* `var? = some 0`, `x = μ` — `0/0 = NaN`: false;
* `var? = some 0`, `x ≠ μ` — `(x-μ)/0 = ±Inf`, and `|±Inf| > t` holds for every
  finite threshold: true;
* `var? = some v`, `v ≠ 0` — `|x-μ|/√v > t`, i.e. `t < 0` or `(x-μ)² > t²·v`. -/
def zExceeds (x μ : ℚ) (var? : Option ℚ) (t : ℚ) : Bool :=
  match var? with
  | none => false
  | some v =>
    if v = 0 then decide (x ≠ μ)
    else decide (t < 0) || decide (t ^ 2 * v < (x - μ) ^ 2)

/-- Outlier decision for one cell of the value column: missing values propagate
`NaN` through `(x - μ)/σ` and are never flagged. -/
def cellOutlier (c : Cell) (μ : ℚ) (var? : Option ℚ) (t : ℚ) : Bool :=
  match c with
  | Cell.num q => zExceeds q μ var? t
  | _ => false

/-- `detect_outliers_zscore(df, amount_column, threshold)`: empty early exit;
`KeyError` on a missing column; `TypeError` when the column holds non-numeric
data; otherwise flag the rows whose z-score against the column's mean and sample
standard deviation exceeds the threshold. -/
def detect_outliers_zscore (df : DFrame) (c : String) (t : ℚ) : Except String DFrame :=
  if df.isEmpty then Except.ok emptyDF
  else
    match colCells df c with
    | none => Except.error ("KeyError: " ++ c)
    | some cells =>
      if cells.any Cell.isStr then
        Except.error ("TypeError: non-numeric values in column " ++ c)
      else
        let vals := numVals cells
        let μ := mean vals
        let v? := sampleVar vals
        Except.ok (filterMask df (cells.map fun cl => cellOutlier cl μ v? t))

/-- Well-formedness of a frame: every row has one cell per column (always true of
a real pandas frame). -/
def DFrame.WF (df : DFrame) : Prop := ∀ r ∈ df.rows, r.2.length = df.cols.length

instance (df : DFrame) : Decidable df.WF := List.decidableBAll _ _

/-- The value-column cell of one row (`NaN` when absent). -/
def cellAt (df : DFrame) (c : String) (r : Nat × List Cell) : Cell :=
  (getCell df.cols r.2 c).getD Cell.na

/-- The value-column cells of all rows, in row order. -/
def cellsOf (df : DFrame) (c : String) : List Cell := df.rows.map (cellAt df c)

/-- `df.dropna(subset=[c])`: drop the rows whose `c`-cell is missing. -/
def dropNaRows (df : DFrame) (c : String) : DFrame :=
  ⟨df.cols, df.rows.filter fun r => !(cellAt df c r == Cell.na)⟩

/-- Remove, from one row, the cell at the first occurrence of column `c`. -/
def dropColRow : List String → List Cell → String → List Cell
  | [], _, _ => []
  | _ :: _, [], _ => []
  | c0 :: cs, x :: xs, c => if c0 = c then xs else x :: dropColRow cs xs c

/-- `df.drop(columns=[c])` for a column occurring at most once: remove the
column and each row's cell at it. -/
def dropCol (df : DFrame) (c : String) : DFrame :=
  if df.cols.contains c then
    ⟨df.cols.erase c, df.rows.map fun r => (r.1, dropColRow df.cols r.2 c)⟩
  else df

/-- The index labels removed by `find_unmatched_entries` on non-empty inputs:
labels of the rows of the concatenation whose key tuple occurs at least twice
in it (closed form proved against the source embedding below). -/
def dupLabelsOf (d1 d2 : DFrame) : List Nat :=
  maskFilter (frameLabels d1 ++ frameLabels d2) (dupKeyMask (frameKeys d1 ++ frameKeys d2))

/-! ## Generic lemmas about mask selection -/

theorem maskFilter_map_self (l : List α) (p : α → Bool) :
    maskFilter l (l.map p) = l.filter p := by
  induction l with
  | nil => rfl
  | cons a l ih =>
    simp only [maskFilter, List.map_cons, List.zip_cons_cons, List.filterMap_cons] at *
    cases h : p a <;> simp [h, ih, List.filter_cons]

theorem maskFilter_append (l1 l2 : List α) (m1 m2 : List Bool)
    (h : l1.length = m1.length) :
    maskFilter (l1 ++ l2) (m1 ++ m2) = maskFilter l1 m1 ++ maskFilter l2 m2 := by
  simp [maskFilter, List.zip_append h]

theorem maskFilter_sublist (l : List α) (m : List Bool) : (maskFilter l m).Sublist l := by
  induction l generalizing m with
  | nil => simp [maskFilter]
  | cons a l ih =>
    cases m with
    | nil => simp [maskFilter]
    | cons b m =>
      simp only [maskFilter, List.zip_cons_cons, List.filterMap_cons]
      cases b with
      | false => exact (ih m).cons a
      | true => exact (ih m).cons₂ a

theorem maskFilter_false (l : List α) (m : List Bool) (h : ∀ b ∈ m, b = false) :
    maskFilter l m = [] := by
  induction l generalizing m with
  | nil => simp [maskFilter]
  | cons a l ih =>
    cases m with
    | nil => simp [maskFilter]
    | cons b m =>
      have hb : b = false := h b (by simp)
      simp only [maskFilter, List.zip_cons_cons, List.filterMap_cons, hb]
      exact ih m fun x hx => h x (by simp [hx])

theorem maskFilter_fst (l : List (α × β)) (m : List Bool) :
    ((l.zip m).filterMap fun x => if x.2 then some x.1.1 else none)
      = maskFilter (l.map Prod.fst) m := by
  induction l generalizing m with
  | nil => simp [maskFilter]
  | cons a l ih =>
    cases m with
    | nil => simp [maskFilter]
    | cons b m =>
      simp only [maskFilter, List.map_cons, List.zip_cons_cons, List.filterMap_cons] at *
      cases b <;> simp [ih]

theorem map_fst_filter_fst (l : List (α × β)) (p : α → Bool) :
    ((l.filter fun x => p x.1).map Prod.fst) = (l.map Prod.fst).filter p := by
  induction l with
  | nil => rfl
  | cons a l ih => cases h : p a.1 <;> simp [List.filter_cons, h, ih]

/-! ## Lemmas about cell access and column updates -/

theorem getCell_setRowCell_ne (cols : List String) (r : List Cell) (c c' : String)
    (v : Cell) (h : c' ≠ c) :
    getCell cols (setRowCell cols r c v) c' = getCell cols r c' := by
  induction cols generalizing r with
  | nil => cases r <;> rfl
  | cons c0 cs ih =>
    cases r with
    | nil => rfl
    | cons x xs =>
      by_cases hc : c0 = c
      · subst hc
        have : ¬ c0 = c' := fun hh => h (hh.symm)
        simp [setRowCell, getCell, this]
      · by_cases hc' : c0 = c'
        · subst hc'
          simp [setRowCell, getCell, hc]
        · simp [setRowCell, getCell, hc, hc', ih]

theorem getCell_append_ne (cols : List String) (r : List Cell) (c c' : String)
    (v : Cell) (hlen : r.length = cols.length) (h : c' ≠ c) :
    getCell (cols ++ [c]) (r ++ [v]) c' = getCell cols r c' := by
  induction cols generalizing r with
  | nil =>
    cases r with
    | nil =>
      have : ¬ c = c' := fun hh => h (hh.symm)
      simp [getCell, this]
    | cons x xs => simp at hlen
  | cons c0 cs ih =>
    cases r with
    | nil => simp at hlen
    | cons x xs =>
      simp only [List.length_cons, Nat.succ.injEq] at hlen
      by_cases hc' : c0 = c'
      · simp [getCell, hc']
      · simp [getCell, hc', ih xs hlen]

theorem dropColRow_setRowCell (cols : List String) (r : List Cell) (c : String)
    (v v' : Cell) :
    dropColRow cols (setRowCell cols r c v) c = dropColRow cols (setRowCell cols r c v') c := by
  induction cols generalizing r with
  | nil => rfl
  | cons c0 cs ih =>
    cases r with
    | nil => rfl
    | cons x xs =>
      by_cases hc : c0 = c
      · simp [setRowCell, dropColRow, hc]
      · simp [setRowCell, dropColRow, hc, ih]

theorem dropColRow_append (cols : List String) (r : List Cell) (c : String) (v : Cell)
    (hc : cols.contains c = false) (hlen : r.length = cols.length) :
    dropColRow (cols ++ [c]) (r ++ [v]) c = r := by
  induction cols generalizing r with
  | nil =>
    cases r with
    | nil => simp [dropColRow]
    | cons x xs => simp at hlen
  | cons c0 cs ih =>
    cases r with
    | nil => simp at hlen
    | cons x xs =>
      rw [List.contains_cons, Bool.or_eq_false_iff] at hc
      obtain ⟨h1, h2⟩ := hc
      simp only [List.length_cons, Nat.succ.injEq] at hlen
      have hne : ¬ c0 = c := fun hh => by simp [hh] at h1
      simp [dropColRow, hne, ih xs h2 hlen]

/-! ## Lemmas about column unions, key columns and tagging -/

theorem mem_unionCols (a b : List String) (c : String) :
    c ∈ unionCols a b ↔ c ∈ a ∨ c ∈ b := by
  simp only [unionCols, List.mem_append, List.mem_filter, Bool.not_eq_true']
  constructor
  · rintro (h | ⟨h, -⟩)
    exacts [Or.inl h, Or.inr h]
  · rintro (h | h)
    · exact Or.inl h
    · by_cases ha : c ∈ a
      · exact Or.inl ha
      · exact Or.inr ⟨h, by simpa using ha⟩

theorem missingKeyCols_eq_nil_iff (cols : List String) :
    missingKeyCols cols = [] ↔ ∀ k ∈ keyCols, k ∈ cols := by
  simp [missingKeyCols, List.filter_eq_nil_iff]

theorem mem_setCol_cols (df : DFrame) (c k : String) (v : Cell) (h : k ≠ c) :
    k ∈ (setCol df c v).cols ↔ k ∈ df.cols := by
  unfold setCol
  split
  · exact Iff.rfl
  · simp [h]

theorem frameLabels_setCol (df : DFrame) (c : String) (v : Cell) :
    frameLabels (setCol df c v) = frameLabels df := by
  unfold setCol frameLabels
  split <;> simp

theorem rowKey_setRowCell (cols : List String) (r : List Cell) (v : Cell) :
    rowKey cols (setRowCell cols r sourceTag v) = rowKey cols r := by
  unfold rowKey
  refine List.map_congr_left fun k hk => ?_
  have hne : k ≠ sourceTag := by
    simp only [keyCols, List.mem_cons, List.not_mem_nil, or_false] at hk
    rcases hk with h | h | h <;> subst h <;> decide
  rw [getCell_setRowCell_ne cols r sourceTag k v hne]

theorem rowKey_append_tag (cols : List String) (r : List Cell) (v : Cell)
    (hlen : r.length = cols.length) :
    rowKey (cols ++ [sourceTag]) (r ++ [v]) = rowKey cols r := by
  unfold rowKey
  refine List.map_congr_left fun k hk => ?_
  have hne : k ≠ sourceTag := by
    simp only [keyCols, List.mem_cons, List.not_mem_nil, or_false] at hk
    rcases hk with h | h | h <;> subst h <;> decide
  rw [getCell_append_ne cols r sourceTag k v hlen hne]

theorem frameKeys_setCol (df : DFrame) (v : Cell) (hwf : df.WF) :
    frameKeys (setCol df sourceTag v) = frameKeys df := by
  unfold setCol frameKeys
  split
  · simp only [List.map_map]
    exact List.map_congr_left fun r _ => rowKey_setRowCell df.cols r.2 v
  · simp only [List.map_map]
    exact List.map_congr_left fun r hr => rowKey_append_tag df.cols r.2 v (hwf r hr)

theorem getCell_map_self (target : List String) (f : String → Cell) (c : String)
    (h : c ∈ target) : getCell target (target.map f) c = some (f c) := by
  induction target with
  | nil => cases h
  | cons t ts ih =>
    by_cases ht : t = c
    · subst ht
      simp [getCell]
    · have hmem : c ∈ ts := by
        rcases List.mem_cons.mp h with h' | h'
        · exact absurd h'.symm ht
        · exact h'
      simp [getCell, ht, ih hmem]

theorem rowKey_reindexRow (src target : List String) (r : List Cell)
    (h : ∀ k ∈ keyCols, k ∈ target) :
    rowKey target (reindexRow src r target) = rowKey src r := by
  unfold rowKey reindexRow
  refine List.map_congr_left fun k hk => ?_
  rw [getCell_map_self target _ k (h k hk)]
  rfl

theorem frameKeys_concatDF (d1 d2 : DFrame)
    (h : ∀ k ∈ keyCols, k ∈ unionCols d1.cols d2.cols) :
    frameKeys (concatDF d1 d2) = frameKeys d1 ++ frameKeys d2 := by
  unfold concatDF frameKeys
  simp only [List.map_append, List.map_map]
  congr 1
  · exact List.map_congr_left fun r _ => rowKey_reindexRow d1.cols _ r.2 h
  · exact List.map_congr_left fun r _ => rowKey_reindexRow d2.cols _ r.2 h

theorem frameLabels_concatDF (d1 d2 : DFrame) :
    frameLabels (concatDF d1 d2) = frameLabels d1 ++ frameLabels d2 := by
  unfold concatDF frameLabels
  simp only [List.map_append, List.map_map]
  congr 1

theorem frameKeys_length (df : DFrame) : (frameKeys df).length = df.rows.length := by
  simp [frameKeys]

theorem frameLabels_length (df : DFrame) : (frameLabels df).length = df.rows.length := by
  simp [frameLabels]

/-! ## Structural characterisation of `find_unmatched_entries` -/

theorem key_ne_sourceTag : ∀ k ∈ keyCols, k ≠ sourceTag := by decide

theorem key_mem_unionCols_setCol (d1 d2 : DFrame) (v v' : Cell) (k : String)
    (hk : k ≠ sourceTag) :
    k ∈ unionCols (setCol d1 sourceTag v).cols (setCol d2 sourceTag v').cols ↔
      k ∈ unionCols d1.cols d2.cols := by
  rw [mem_unionCols, mem_unionCols, mem_setCol_cols _ _ _ _ hk, mem_setCol_cols _ _ _ _ hk]

theorem missingKeyCols_unionCols_setCol (d1 d2 : DFrame) (v v' : Cell) :
    missingKeyCols (unionCols (setCol d1 sourceTag v).cols (setCol d2 sourceTag v').cols)
      = missingKeyCols (unionCols d1.cols d2.cols) := by
  refine List.filter_congr fun k hk => ?_
  have h := key_mem_unionCols_setCol d1 d2 v v' k (key_ne_sourceTag k hk)
  by_cases hm : k ∈ unionCols d1.cols d2.cols
  · simp [hm, h.mpr hm]
  · have : k ∉ unionCols (setCol d1 sourceTag v).cols (setCol d2 sourceTag v').cols :=
      fun hx => hm (h.mp hx)
    simp [hm, this]

theorem missingKeyCols_unionCols_comm (a b : List String) :
    missingKeyCols (unionCols a b) = missingKeyCols (unionCols b a) := by
  refine List.filter_congr fun k _ => ?_
  by_cases hm : k ∈ a ∨ k ∈ b
  · have h1 : k ∈ unionCols a b := (mem_unionCols a b k).mpr hm
    have h2 : k ∈ unionCols b a := (mem_unionCols b a k).mpr hm.symm
    simp [h1, h2]
  · have h1 : k ∉ unionCols a b := fun hx => hm ((mem_unionCols a b k).mp hx)
    have h2 : k ∉ unionCols b a := fun hx => hm ((mem_unionCols b a k).mp hx).symm
    simp [h1, h2]

theorem find_unmatched_empty (d1 d2 : DFrame) (h : (d1.isEmpty || d2.isEmpty) = true) :
    find_unmatched_entries d1 d2 = Except.ok (emptyDF, emptyDF) := by
  unfold find_unmatched_entries
  rw [h]
  rfl

theorem find_unmatched_error_spec (d1 d2 : DFrame) (h1 : d1.isEmpty = false)
    (h2 : d2.isEmpty = false)
    (hm : missingKeyCols (unionCols d1.cols d2.cols) ≠ []) :
    find_unmatched_entries d1 d2 =
      Except.error ("KeyError: " ++ String.intercalate ", "
        (missingKeyCols (unionCols d1.cols d2.cols))) := by
  unfold find_unmatched_entries
  rw [h1, h2]
  have hcols : (concatDF (setCol d1 sourceTag (Cell.str "df1"))
      (setCol d2 sourceTag (Cell.str "df2"))).cols
      = unionCols (setCol d1 sourceTag (Cell.str "df1")).cols
          (setCol d2 sourceTag (Cell.str "df2")).cols := rfl
  have hmiss : missingKeyCols (concatDF (setCol d1 sourceTag (Cell.str "df1"))
      (setCol d2 sourceTag (Cell.str "df2"))).cols
      = missingKeyCols (unionCols d1.cols d2.cols) := by
    rw [hcols, missingKeyCols_unionCols_setCol]
  have hne : (missingKeyCols (unionCols d1.cols d2.cols)).isEmpty = false := by
    cases hx : missingKeyCols (unionCols d1.cols d2.cols) with
    | nil => exact absurd hx hm
    | cons a l => rfl
  simp only [duplicatedMask, hmiss, hne]
  simp

theorem duplicatedMask_tagged (d1 d2 : DFrame) (hw1 : d1.WF) (hw2 : d2.WF)
    (hm : missingKeyCols (unionCols d1.cols d2.cols) = []) :
    duplicatedMask (concatDF (setCol d1 sourceTag (Cell.str "df1"))
        (setCol d2 sourceTag (Cell.str "df2")))
      = Except.ok (dupKeyMask (frameKeys d1 ++ frameKeys d2)) := by
  have hmem : ∀ k ∈ keyCols,
      k ∈ unionCols (setCol d1 sourceTag (Cell.str "df1")).cols
        (setCol d2 sourceTag (Cell.str "df2")).cols := by
    intro k hk
    rw [key_mem_unionCols_setCol d1 d2 _ _ k (key_ne_sourceTag k hk)]
    exact (missingKeyCols_eq_nil_iff _).mp hm k hk
  have hmiss : missingKeyCols (concatDF (setCol d1 sourceTag (Cell.str "df1"))
      (setCol d2 sourceTag (Cell.str "df2"))).cols = [] :=
    (missingKeyCols_eq_nil_iff _).mpr hmem
  have hkeys : frameKeys (concatDF (setCol d1 sourceTag (Cell.str "df1"))
      (setCol d2 sourceTag (Cell.str "df2"))) = frameKeys d1 ++ frameKeys d2 := by
    rw [frameKeys_concatDF _ _ hmem, frameKeys_setCol d1 _ hw1, frameKeys_setCol d2 _ hw2]
  simp only [duplicatedMask, hmiss, hkeys, List.isEmpty_nil, if_true]

theorem find_unmatched_ok_spec (d1 d2 : DFrame) (h1 : d1.isEmpty = false)
    (h2 : d2.isEmpty = false) (hw1 : d1.WF) (hw2 : d2.WF)
    (hm : missingKeyCols (unionCols d1.cols d2.cols) = []) :
    find_unmatched_entries d1 d2 =
      Except.ok
        (dropLabels (setCol d1 sourceTag (Cell.str "df1")) (dupLabelsOf d1 d2),
         dropLabels (setCol d2 sourceTag (Cell.str "df2")) (dupLabelsOf d1 d2)) := by
  unfold find_unmatched_entries
  rw [h1, h2]
  simp only [Bool.or_self, Bool.false_or, if_false,
    duplicatedMask_tagged d1 d2 hw1 hw2 hm]
  have hL : ((concatDF (setCol d1 sourceTag (Cell.str "df1"))
        (setCol d2 sourceTag (Cell.str "df2"))).rows.zip
          (dupKeyMask (frameKeys d1 ++ frameKeys d2))).filterMap
      (fun x => if x.2 then some x.1.1 else none) = dupLabelsOf d1 d2 := by
    rw [maskFilter_fst]
    have hlab : (concatDF (setCol d1 sourceTag (Cell.str "df1"))
        (setCol d2 sourceTag (Cell.str "df2"))).rows.map Prod.fst
        = frameLabels d1 ++ frameLabels d2 := by
      show frameLabels _ = _
      rw [frameLabels_concatDF, frameLabels_setCol, frameLabels_setCol]
    rw [hlab]
    rfl
  rw [hL]
  rfl

/-! ## Symmetry of the duplicated-label set -/

theorem contains_append_comm (a b : List Nat) (n : Nat) :
    (a ++ b).contains n = (b ++ a).contains n := by
  by_cases h : n ∈ a ∨ n ∈ b
  · have h1 : n ∈ a ++ b := List.mem_append.mpr h
    have h2 : n ∈ b ++ a := List.mem_append.mpr h.symm
    simp [h1, h2]
  · have h1 : n ∉ a ++ b := fun hx => h (List.mem_append.mp hx)
    have h2 : n ∉ b ++ a := fun hx => h (List.mem_append.mp hx).symm
    simp [h1, h2]

theorem dupLabelsOf_eq (d1 d2 : DFrame) :
    dupLabelsOf d1 d2
      = maskFilter (frameLabels d1) ((frameKeys d1).map fun k =>
          decide (2 ≤ (frameKeys d1 ++ frameKeys d2).count k))
        ++ maskFilter (frameLabels d2) ((frameKeys d2).map fun k =>
          decide (2 ≤ (frameKeys d1 ++ frameKeys d2).count k)) := by
  unfold dupLabelsOf dupKeyMask
  rw [List.map_append, maskFilter_append]
  simp [frameLabels_length, frameKeys_length]

theorem dupLabelsOf_comm_eq (d1 d2 : DFrame) :
    dupLabelsOf d2 d1
      = maskFilter (frameLabels d2) ((frameKeys d2).map fun k =>
          decide (2 ≤ (frameKeys d1 ++ frameKeys d2).count k))
        ++ maskFilter (frameLabels d1) ((frameKeys d1).map fun k =>
          decide (2 ≤ (frameKeys d1 ++ frameKeys d2).count k)) := by
  have hcnt : ∀ k : List Cell,
      (frameKeys d2 ++ frameKeys d1).count k = (frameKeys d1 ++ frameKeys d2).count k :=
    fun k => by rw [List.count_append, List.count_append, Nat.add_comm]
  unfold dupLabelsOf dupKeyMask
  rw [List.map_append, maskFilter_append]
  · congr 2 <;> exact List.map_congr_left fun k _ => by rw [hcnt]
  · simp [frameLabels_length, frameKeys_length]

theorem dupLabelsOf_contains_comm (d1 d2 : DFrame) (n : Nat) :
    (dupLabelsOf d2 d1).contains n = (dupLabelsOf d1 d2).contains n := by
  rw [dupLabelsOf_eq d1 d2, dupLabelsOf_comm_eq d1 d2, contains_append_comm]

/-! ## The `_source` value does not survive `dropCol` -/

theorem map_filter_label (l : List (Nat × List Cell)) (g : Nat × List Cell → List Cell)
    (p : Nat → Bool) :
    ((l.map fun r => (r.1, g r)).filter fun r => p r.1)
      = (l.filter fun r => p r.1).map fun r => (r.1, g r) := by
  induction l with
  | nil => rfl
  | cons a l ih => by_cases h : p a.1 <;> simp [List.filter_cons, h, ih]

theorem dropCol_dropLabels_setCol (df : DFrame) (hwf : df.WF) (v v' : Cell)
    (L L' : List Nat) (hL : ∀ n, L.contains n = L'.contains n) :
    dropCol (dropLabels (setCol df sourceTag v) L) sourceTag
      = dropCol (dropLabels (setCol df sourceTag v') L') sourceTag := by
  have hfilter : (df.rows.filter fun r => !L.contains r.1)
      = df.rows.filter fun r => !L'.contains r.1 :=
    List.filter_congr fun r _ => by rw [hL]
  by_cases hc : df.cols.contains sourceTag
  · have e1 : ∀ w : Cell, setCol df sourceTag w
        = ⟨df.cols, df.rows.map fun r => (r.1, setRowCell df.cols r.2 sourceTag w)⟩ := by
      intro w
      unfold setCol
      rw [if_pos hc]
    rw [e1 v, e1 v']
    unfold dropLabels dropCol
    simp only
    rw [if_pos hc, if_pos hc,
      map_filter_label df.rows (fun r => setRowCell df.cols r.2 sourceTag v) (fun n => !L.contains n),
      map_filter_label df.rows (fun r => setRowCell df.cols r.2 sourceTag v') (fun n => !L'.contains n),
      hfilter, List.map_map, List.map_map]
    congr 1
    refine List.map_congr_left fun r _ => ?_
    show (r.1, dropColRow df.cols (setRowCell df.cols r.2 sourceTag v) sourceTag)
      = (r.1, dropColRow df.cols (setRowCell df.cols r.2 sourceTag v') sourceTag)
    rw [dropColRow_setRowCell df.cols r.2 sourceTag v v']
  · have hcf : df.cols.contains sourceTag = false := by
      cases hx : df.cols.contains sourceTag with
      | false => rfl
      | true => exact absurd hx hc
    have e1 : ∀ w : Cell, setCol df sourceTag w
        = ⟨df.cols ++ [sourceTag], df.rows.map fun r => (r.1, r.2 ++ [w])⟩ := by
      intro w
      unfold setCol
      rw [if_neg hc]
    rw [e1 v, e1 v']
    unfold dropLabels dropCol
    simp only
    have hc' : (df.cols ++ [sourceTag]).contains sourceTag = true := by simp
    rw [if_pos hc', if_pos hc',
      map_filter_label df.rows (fun r => r.2 ++ [v]) (fun n => !L.contains n),
      map_filter_label df.rows (fun r => r.2 ++ [v']) (fun n => !L'.contains n),
      hfilter, List.map_map, List.map_map]
    congr 1
    refine List.map_congr_left fun r hr => ?_
    have hrm : r ∈ df.rows := (List.mem_filter.mp hr).1
    show (r.1, dropColRow (df.cols ++ [sourceTag]) (r.2 ++ [v]) sourceTag)
      = (r.1, dropColRow (df.cols ++ [sourceTag]) (r.2 ++ [v']) sourceTag)
    rw [dropColRow_append df.cols r.2 sourceTag v hcf (hwf r hrm),
        dropColRow_append df.cols r.2 sourceTag v' hcf (hwf r hrm)]

/-! ## Claim C7 -/

/-- C7: if either input table of the unmatched-entry finder is empty, both
returned tables are empty and no error is raised, regardless of the other
table's contents. -/
theorem c7_empty_input_both_empty (d1 d2 : DFrame)
    (h : d1.isEmpty = true ∨ d2.isEmpty = true) :
    find_unmatched_entries d1 d2 = Except.ok (emptyDF, emptyDF) := by
  apply find_unmatched_empty
  rcases h with h | h <;> simp [h]

/-- Witness for C7: an empty first table and a non-empty second table. -/
theorem c7_witness :
    (DFrame.mk [] []).isEmpty = true ∧
    find_unmatched_entries (DFrame.mk [] [])
        (DFrame.mk ["txn_date", "txn_amount", "txn_description"]
          [(0, [Cell.str "d", Cell.num 1, Cell.str "x"])])
      = Except.ok (emptyDF, emptyDF) :=
  ⟨rfl, c7_empty_input_both_empty _ _ (Or.inl rfl)⟩

/-! ## Claim C2 -/

/-- C2: a row appears in the output of `detect_duplicates` iff the group of
rows sharing its key tuple has size at least two; all rows of a duplicated
group appear, in order and multiplicity (the output is the filter of the input
rows by group size ≥ 2), and an empty table yields an empty result without
error. -/
theorem c2_detect_duplicates_iff_group_ge_two (df : DFrame)
    (hk : missingKeyCols df.cols = []) :
    ∃ out, detect_duplicates df = Except.ok out ∧
      out.rows = df.rows.filter fun r =>
        decide (2 ≤ (frameKeys df).count (rowKey df.cols r.2)) := by
  cases he : df.isEmpty with
  | true =>
    refine ⟨emptyDF, by simp [detect_duplicates, he], ?_⟩
    have hdate : "txn_date" ∈ df.cols :=
      (missingKeyCols_eq_nil_iff df.cols).mp hk "txn_date" (by decide)
    have hcols : ¬ df.cols.isEmpty = true := by
      cases hx : df.cols with
      | nil => rw [hx] at hdate; cases hdate
      | cons a l => simp [hx]
    have hrows : df.rows = [] := by
      unfold DFrame.isEmpty at he
      rcases Bool.or_eq_true_iff.mp he with h | h
      · exact List.isEmpty_iff.mp h
      · exact absurd h hcols
    rw [hrows]
    rfl
  | false =>
    have hmask : duplicatedMask df = Except.ok (dupKeyMask (frameKeys df)) := by
      unfold duplicatedMask
      rw [hk]
      rfl
    refine ⟨filterMask df (dupKeyMask (frameKeys df)), by simp [detect_duplicates, he, hmask], ?_⟩
    show maskFilter df.rows (dupKeyMask (frameKeys df)) = _
    unfold dupKeyMask frameKeys
    rw [List.map_map]
    exact maskFilter_map_self df.rows _

/-- Witness for C2: a table with one duplicated pair and one unique row; the
two colliding rows are both returned, the unique one is not. -/
theorem c2_witness :
    missingKeyCols ["txn_date", "txn_amount", "txn_description"] = [] ∧
    ∃ out,
      detect_duplicates
          (DFrame.mk ["txn_date", "txn_amount", "txn_description"]
            [(0, [Cell.str "a", Cell.num 1, Cell.str "p"]),
             (1, [Cell.str "a", Cell.num 1, Cell.str "p"]),
             (2, [Cell.str "b", Cell.num 2, Cell.str "q"])])
        = Except.ok out ∧
      out.rows = (DFrame.mk ["txn_date", "txn_amount", "txn_description"]
            [(0, [Cell.str "a", Cell.num 1, Cell.str "p"]),
             (1, [Cell.str "a", Cell.num 1, Cell.str "p"]),
             (2, [Cell.str "b", Cell.num 2, Cell.str "q"])]).rows.filter fun r =>
        decide (2 ≤ (frameKeys (DFrame.mk ["txn_date", "txn_amount", "txn_description"]
            [(0, [Cell.str "a", Cell.num 1, Cell.str "p"]),
             (1, [Cell.str "a", Cell.num 1, Cell.str "p"]),
             (2, [Cell.str "b", Cell.num 2, Cell.str "q"])])).count
          (rowKey ["txn_date", "txn_amount", "txn_description"] r.2)) :=
  ⟨by decide, c2_detect_duplicates_iff_group_ge_two _ (by decide)⟩

/-! ## Claim C1 -/

/-- C1 (code bug, concrete evaluation): table A has two rows with the same key
tuple, absent from B; B has one row whose key tuple is absent from A.  The
claim (and the module docstring) requires both rows of A in `onlyInA` and B's
row in `onlyInB`; the code returns both outputs empty: the within-A duplicate
marks A's labels 0 and 1 as "duplicated" in the concatenation, and B's row is
then dropped as well because its index label 0 collides with A's label 0. -/
theorem c1_unmatched_within_side_duplicates_suppressed :
    find_unmatched_entries
        (DFrame.mk ["txn_date", "txn_amount", "txn_description"]
          [(0, [Cell.str "d1", Cell.num 1, Cell.str "x"]),
           (1, [Cell.str "d1", Cell.num 1, Cell.str "x"])])
        (DFrame.mk ["txn_date", "txn_amount", "txn_description"]
          [(0, [Cell.str "d2", Cell.num 2, Cell.str "y"])])
      = Except.ok
          (DFrame.mk ["txn_date", "txn_amount", "txn_description", "_source"] [],
           DFrame.mk ["txn_date", "txn_amount", "txn_description", "_source"] [])
    ∧ (frameKeys (DFrame.mk ["txn_date", "txn_amount", "txn_description"]
          [(0, [Cell.str "d2", Cell.num 2, Cell.str "y"])])).count
        (rowKey ["txn_date", "txn_amount", "txn_description"]
          [Cell.str "d1", Cell.num 1, Cell.str "x"]) = 0 := by
  exact ⟨rfl, rfl⟩

/-! ## Statistics lemmas -/

theorem numVals_all_num (cells : List Cell) (q0 : ℚ)
    (h : ∀ cl ∈ cells, cl = Cell.num q0) :
    numVals cells = List.replicate cells.length q0 := by
  induction cells with
  | nil => rfl
  | cons a l ih =>
    have ha := h a (by simp)
    subst ha
    have ihl := ih fun cl hcl => h cl (List.mem_cons_of_mem _ hcl)
    simp [numVals, List.filterMap_cons, List.replicate_succ] at *
    exact ihl

theorem mean_replicate (n : ℕ) (q : ℚ) (hn : n ≠ 0) :
    mean (List.replicate n q) = q := by
  unfold mean
  rw [List.sum_replicate, List.length_replicate, nsmul_eq_mul]
  exact mul_div_cancel_left₀ q (Nat.cast_ne_zero.mpr hn)

theorem sampleVar_replicate (n : ℕ) (q : ℚ) (hn : 2 ≤ n) :
    sampleVar (List.replicate n q) = some 0 := by
  unfold sampleVar
  rw [List.length_replicate, if_neg (by omega)]
  have hm : mean (List.replicate n q) = q := mean_replicate n q (by omega)
  simp [hm, List.map_replicate, List.sum_replicate]

theorem sampleVar_nonneg (xs : List ℚ) (v : ℚ) (h : sampleVar xs = some v) : 0 ≤ v := by
  unfold sampleVar at h
  by_cases hn : xs.length ≤ 1
  · rw [if_pos hn] at h
    cases h
  · rw [if_neg hn] at h
    have hv := Option.some.inj h
    rw [← hv]
    apply div_nonneg
    · apply List.sum_nonneg
      intro x hx
      obtain ⟨y, _, rfl⟩ := List.mem_map.mp hx
      positivity
    · have h2 : 2 ≤ xs.length := by omega
      have h2' : (2 : ℚ) ≤ (xs.length : ℚ) := by exact_mod_cast h2
      linarith

theorem sampleVar_eq_zero_all_mean (xs : List ℚ) (h : sampleVar xs = some 0) :
    ∀ x ∈ xs, x = mean xs := by
  unfold sampleVar at h
  by_cases hn : xs.length ≤ 1
  · rw [if_pos hn] at h
    cases h
  · rw [if_neg hn] at h
    have hv := Option.some.inj h
    have hlen : ((xs.length : ℚ) - 1) ≠ 0 := by
      have h2 : 2 ≤ xs.length := by omega
      have h2' : (2 : ℚ) ≤ (xs.length : ℚ) := by exact_mod_cast h2
      intro h0
      linarith
    have hsum : (xs.map fun x => (x - mean xs) ^ 2).sum = 0 := by
      rcases div_eq_zero_iff.mp hv with h0 | h0
      · exact h0
      · exact absurd h0 hlen
    intro x hx
    have hnn : ∀ y ∈ xs.map fun x => (x - mean xs) ^ 2, 0 ≤ y := by
      intro y hy
      obtain ⟨z, _, rfl⟩ := List.mem_map.mp hy
      positivity
    have hmem : (x - mean xs) ^ 2 ∈ xs.map fun x => (x - mean xs) ^ 2 :=
      List.mem_map.mpr ⟨x, hx, rfl⟩
    have hle : (x - mean xs) ^ 2 ≤ 0 := hsum ▸ List.single_le_sum hnn _ hmem
    have hz : (x - mean xs) ^ 2 = 0 := le_antisymm hle (by positivity)
    have := pow_eq_zero_iff (n := 2) (by norm_num) |>.mp hz
    linarith [sub_eq_zero.mp this]

/-! ## Claim C4 -/

/-- C4: on a non-empty table whose value column holds one repeated value
(including the single-row case), the z-score detector returns an empty result
for every threshold and raises no error: the `0/0 = NaN` (or `std = NaN`)
z-scores never compare above any threshold. -/
theorem c4_zscore_constant_column_empty (df : DFrame) (c : String) (t q0 : ℚ)
    (hne : df.rows ≠ [])
    (hc : df.cols.contains c = true)
    (hall : ∀ cl ∈ cellsOf df c, cl = Cell.num q0) :
    ∃ out, detect_outliers_zscore df c t = Except.ok out ∧ out.rows = [] := by
  have he : df.isEmpty = false := by
    unfold DFrame.isEmpty
    have h1 : df.rows.isEmpty = false := by
      cases hx : df.rows with
      | nil => exact absurd hx hne
      | cons a l => rfl
    have h2 : df.cols.isEmpty = false := by
      cases hx : df.cols with
      | nil => rw [hx] at hc; cases hc
      | cons a l => rfl
    rw [h1, h2]
    rfl
  have hcol : colCells df c = some (cellsOf df c) := by
    unfold colCells
    rw [if_pos hc]
    rfl
  have hstr : (cellsOf df c).any Cell.isStr = false := by
    rw [List.any_eq_false]
    intro cl hcl
    rw [hall cl hcl]
    simp [Cell.isStr]
  have hvals : numVals (cellsOf df c) = List.replicate (cellsOf df c).length q0 :=
    numVals_all_num _ q0 hall
  have hmaskfalse : ∀ b ∈ (cellsOf df c).map fun cl =>
      cellOutlier cl (mean (numVals (cellsOf df c))) (sampleVar (numVals (cellsOf df c))) t,
      b = false := by
    intro b hb
    obtain ⟨cl, hcl, rfl⟩ := List.mem_map.mp hb
    rw [hall cl hcl]
    show zExceeds q0 (mean (numVals (cellsOf df c))) (sampleVar (numVals (cellsOf df c))) t
      = false
    by_cases hn : (numVals (cellsOf df c)).length ≤ 1
    · have hv : sampleVar (numVals (cellsOf df c)) = none := by
        unfold sampleVar
        rw [if_pos hn]
      rw [hv]
      rfl
    · have hlen : (numVals (cellsOf df c)).length = (cellsOf df c).length := by
        rw [hvals, List.length_replicate]
      have hn2 : 2 ≤ (cellsOf df c).length := by omega
      have hμ : mean (numVals (cellsOf df c)) = q0 := by
        rw [hvals]
        exact mean_replicate _ q0 (by omega)
      have hv : sampleVar (numVals (cellsOf df c)) = some 0 := by
        rw [hvals]
        exact sampleVar_replicate _ q0 hn2
      rw [hμ, hv]
      simp [zExceeds]
  refine ⟨filterMask df ((cellsOf df c).map fun cl =>
      cellOutlier cl (mean (numVals (cellsOf df c))) (sampleVar (numVals (cellsOf df c))) t), ?_, ?_⟩
  · simp [detect_outliers_zscore, he, hcol, hstr]
  · exact maskFilter_false _ _ hmaskfalse

/-- Witness for C4: two rows both valued 7, negative threshold −5; output empty. -/
theorem c4_witness :
    (DFrame.mk ["txn_amount"] [(0, [Cell.num 7]), (1, [Cell.num 7])]).rows ≠ [] ∧
    (∀ cl ∈ cellsOf (DFrame.mk ["txn_amount"] [(0, [Cell.num 7]), (1, [Cell.num 7])])
        "txn_amount", cl = Cell.num 7) ∧
    ∃ out,
      detect_outliers_zscore
          (DFrame.mk ["txn_amount"] [(0, [Cell.num 7]), (1, [Cell.num 7])])
          "txn_amount" (-5)
        = Except.ok out ∧ out.rows = [] :=
  ⟨by decide, by decide,
    c4_zscore_constant_column_empty _ "txn_amount" (-5) 7 (by decide) (by decide) (by decide)⟩

/-! ## Claim C6 -/

/-- C6 (amended): the unmatched-entry finder is symmetric only up to the
`_source` marker column its outputs carry: after dropping that column, the
swapped call returns exactly the swapped outputs (and both calls fail with the
same error in the error cases). -/
theorem c6_symmetry_up_to_source_tag (d1 d2 : DFrame) (hw1 : d1.WF) (hw2 : d2.WF) :
    (find_unmatched_entries d2 d1).map
        (fun p => (dropCol p.2 sourceTag, dropCol p.1 sourceTag))
      = (find_unmatched_entries d1 d2).map
        (fun p => (dropCol p.1 sourceTag, dropCol p.2 sourceTag)) := by
  cases h1 : d1.isEmpty with
  | true =>
    rw [find_unmatched_empty d1 d2 (by simp [h1]), find_unmatched_empty d2 d1 (by simp [h1])]
    rfl
  | false =>
    cases h2 : d2.isEmpty with
    | true =>
      rw [find_unmatched_empty d1 d2 (by simp [h2]), find_unmatched_empty d2 d1 (by simp [h2])]
      rfl
    | false =>
      by_cases hm : missingKeyCols (unionCols d1.cols d2.cols) = []
      · have hm' : missingKeyCols (unionCols d2.cols d1.cols) = [] := by
          rw [missingKeyCols_unionCols_comm]
          exact hm
        rw [find_unmatched_ok_spec d1 d2 h1 h2 hw1 hw2 hm,
            find_unmatched_ok_spec d2 d1 h2 h1 hw2 hw1 hm']
        simp only [Except.map]
        rw [dropCol_dropLabels_setCol d1 hw1 (Cell.str "df2") (Cell.str "df1")
              (dupLabelsOf d2 d1) (dupLabelsOf d1 d2) (dupLabelsOf_contains_comm d1 d2),
            dropCol_dropLabels_setCol d2 hw2 (Cell.str "df1") (Cell.str "df2")
              (dupLabelsOf d2 d1) (dupLabelsOf d1 d2) (dupLabelsOf_contains_comm d1 d2)]
      · have hm' : missingKeyCols (unionCols d2.cols d1.cols) ≠ [] := by
          rw [missingKeyCols_unionCols_comm]
          exact hm
        rw [find_unmatched_error_spec d1 d2 h1 h2 hm,
            find_unmatched_error_spec d2 d1 h2 h1 hm',
            missingKeyCols_unionCols_comm d2.cols d1.cols]
        rfl

/-- Witness for C6: two one-row tables with distinct keys. -/
theorem c6_witness :
    (DFrame.mk ["txn_date", "txn_amount", "txn_description"]
      [(0, [Cell.str "d1", Cell.num 1, Cell.str "x"])]).WF ∧
    (find_unmatched_entries
        (DFrame.mk ["txn_date", "txn_amount", "txn_description"]
          [(0, [Cell.str "d2", Cell.num 2, Cell.str "y"])])
        (DFrame.mk ["txn_date", "txn_amount", "txn_description"]
          [(0, [Cell.str "d1", Cell.num 1, Cell.str "x"])])).map
        (fun p => (dropCol p.2 sourceTag, dropCol p.1 sourceTag))
      = (find_unmatched_entries
        (DFrame.mk ["txn_date", "txn_amount", "txn_description"]
          [(0, [Cell.str "d1", Cell.num 1, Cell.str "x"])])
        (DFrame.mk ["txn_date", "txn_amount", "txn_description"]
          [(0, [Cell.str "d2", Cell.num 2, Cell.str "y"])])).map
        (fun p => (dropCol p.1 sourceTag, dropCol p.2 sourceTag)) :=
  ⟨by decide, c6_symmetry_up_to_source_tag _ _ (by decide) (by decide)⟩

/-- Counterexample to C6 as stated: with `A`, `B` two one-row tables with
distinct keys, `find_unmatched_entries A B = (x, y)` but the swapped call does
not return `(y, x)`: its outputs differ from `y` and `x` in the `_source`
column (`'df1'` versus `'df2'`). -/
theorem c6_counterexample :
    find_unmatched_entries
        (DFrame.mk ["txn_date", "txn_amount", "txn_description"]
          [(0, [Cell.str "d1", Cell.num 1, Cell.str "x"])])
        (DFrame.mk ["txn_date", "txn_amount", "txn_description"]
          [(0, [Cell.str "d2", Cell.num 2, Cell.str "y"])])
      = Except.ok
          (DFrame.mk ["txn_date", "txn_amount", "txn_description", "_source"]
            [(0, [Cell.str "d1", Cell.num 1, Cell.str "x", Cell.str "df1"])],
           DFrame.mk ["txn_date", "txn_amount", "txn_description", "_source"]
            [(0, [Cell.str "d2", Cell.num 2, Cell.str "y", Cell.str "df2"])])
    ∧ find_unmatched_entries
        (DFrame.mk ["txn_date", "txn_amount", "txn_description"]
          [(0, [Cell.str "d2", Cell.num 2, Cell.str "y"])])
        (DFrame.mk ["txn_date", "txn_amount", "txn_description"]
          [(0, [Cell.str "d1", Cell.num 1, Cell.str "x"])])
      = Except.ok
          (DFrame.mk ["txn_date", "txn_amount", "txn_description", "_source"]
            [(0, [Cell.str "d2", Cell.num 2, Cell.str "y", Cell.str "df1"])],
           DFrame.mk ["txn_date", "txn_amount", "txn_description", "_source"]
            [(0, [Cell.str "d1", Cell.num 1, Cell.str "x", Cell.str "df2"])])
    ∧ (DFrame.mk ["txn_date", "txn_amount", "txn_description", "_source"]
          [(0, [Cell.str "d2", Cell.num 2, Cell.str "y", Cell.str "df1"])])
        ≠ (DFrame.mk ["txn_date", "txn_amount", "txn_description", "_source"]
          [(0, [Cell.str "d2", Cell.num 2, Cell.str "y", Cell.str "df2"])]) :=
  ⟨rfl, rfl, by decide⟩

/-! ## Claim C5 -/

/-- C5 (amended): `detect_duplicates` and `detect_outliers_zscore` return, on
non-empty input, a table with exactly the input's columns whose rows are a
sublist of the input's rows; `find_unmatched_entries` returns row-sublists of
its inputs *augmented with the `_source` marker column*; on empty inputs all
three return a fresh column-less empty frame.  (The embedding is pure, which
is the formal counterpart of "the inputs are not mutated": the source copies
its inputs before tagging them.) -/
theorem c5_outputs_row_subsets :
    (∀ df out, detect_duplicates df = Except.ok out → df.isEmpty = false →
        out.cols = df.cols ∧ out.rows.Sublist df.rows) ∧
    (∀ df c t out, detect_outliers_zscore df c t = Except.ok out → df.isEmpty = false →
        out.cols = df.cols ∧ out.rows.Sublist df.rows) ∧
    (∀ d1 d2 o1 o2, find_unmatched_entries d1 d2 = Except.ok (o1, o2) →
        d1.isEmpty = false → d2.isEmpty = false →
        (o1.cols = (setCol d1 sourceTag (Cell.str "df1")).cols ∧
          o1.rows.Sublist (setCol d1 sourceTag (Cell.str "df1")).rows) ∧
        (o2.cols = (setCol d2 sourceTag (Cell.str "df2")).cols ∧
          o2.rows.Sublist (setCol d2 sourceTag (Cell.str "df2")).rows)) ∧
    (∀ df, df.isEmpty = true → detect_duplicates df = Except.ok emptyDF) ∧
    (∀ df c t, df.isEmpty = true → detect_outliers_zscore df c t = Except.ok emptyDF) := by
  refine ⟨?_, ?_, ?_, ?_, ?_⟩
  · intro df out h he
    simp only [detect_duplicates, he, Bool.false_eq_true, if_false] at h
    cases hd : duplicatedMask df with
    | error e =>
      rw [hd] at h
      cases h
    | ok mask =>
      rw [hd] at h
      have hout := (Except.ok.inj h).symm
      subst hout
      exact ⟨rfl, maskFilter_sublist df.rows mask⟩
  · intro df c t out h he
    simp only [detect_outliers_zscore, he, Bool.false_eq_true, if_false] at h
    split at h
    · cases h
    · split at h
      · cases h
      · have hout := (Except.ok.inj h).symm
        subst hout
        exact ⟨rfl, maskFilter_sublist df.rows _⟩
  · intro d1 d2 o1 o2 h h1 h2
    simp only [find_unmatched_entries, h1, h2, Bool.or_self, Bool.false_eq_true, if_false] at h
    cases hd : duplicatedMask (concatDF (setCol d1 sourceTag (Cell.str "df1"))
        (setCol d2 sourceTag (Cell.str "df2"))) with
    | error e =>
      rw [hd] at h
      cases h
    | ok mask =>
      rw [hd] at h
      have hpair := Except.ok.inj h
      have ho1 : o1 = dropLabels (setCol d1 sourceTag (Cell.str "df1")) _ :=
        (congrArg Prod.fst hpair).symm
      have ho2 : o2 = dropLabels (setCol d2 sourceTag (Cell.str "df2")) _ :=
        (congrArg Prod.snd hpair).symm
      rw [ho1, ho2]
      exact ⟨⟨rfl, List.filter_sublist _⟩, ⟨rfl, List.filter_sublist _⟩⟩
  · intro df h
    simp [detect_duplicates, h]
  · intro df c t h
    simp [detect_outliers_zscore, h]

/-- Witness for C5 (amended): the duplicate detector on a concrete table
returns the input's columns and a row-sublist. -/
theorem c5_witness :
    detect_duplicates
        (DFrame.mk ["txn_date", "txn_amount", "txn_description"]
          [(0, [Cell.str "a", Cell.num 1, Cell.str "p"]),
           (1, [Cell.str "a", Cell.num 1, Cell.str "p"]),
           (2, [Cell.str "b", Cell.num 2, Cell.str "q"])])
      = Except.ok
          (DFrame.mk ["txn_date", "txn_amount", "txn_description"]
            [(0, [Cell.str "a", Cell.num 1, Cell.str "p"]),
             (1, [Cell.str "a", Cell.num 1, Cell.str "p"])]) ∧
    (DFrame.mk ["txn_date", "txn_amount", "txn_description"]
      [(0, [Cell.str "a", Cell.num 1, Cell.str "p"]),
       (1, [Cell.str "a", Cell.num 1, Cell.str "p"])]).cols
      = (DFrame.mk ["txn_date", "txn_amount", "txn_description"]
          [(0, [Cell.str "a", Cell.num 1, Cell.str "p"]),
           (1, [Cell.str "a", Cell.num 1, Cell.str "p"]),
           (2, [Cell.str "b", Cell.num 2, Cell.str "q"])]).cols ∧
    (DFrame.mk ["txn_date", "txn_amount", "txn_description"]
      [(0, [Cell.str "a", Cell.num 1, Cell.str "p"]),
       (1, [Cell.str "a", Cell.num 1, Cell.str "p"])]).rows.Sublist
      (DFrame.mk ["txn_date", "txn_amount", "txn_description"]
        [(0, [Cell.str "a", Cell.num 1, Cell.str "p"]),
         (1, [Cell.str "a", Cell.num 1, Cell.str "p"]),
         (2, [Cell.str "b", Cell.num 2, Cell.str "q"])]).rows :=
  ⟨rfl,
    (c5_outputs_row_subsets.1
      (DFrame.mk ["txn_date", "txn_amount", "txn_description"]
        [(0, [Cell.str "a", Cell.num 1, Cell.str "p"]),
         (1, [Cell.str "a", Cell.num 1, Cell.str "p"]),
         (2, [Cell.str "b", Cell.num 2, Cell.str "q"])])
      (DFrame.mk ["txn_date", "txn_amount", "txn_description"]
        [(0, [Cell.str "a", Cell.num 1, Cell.str "p"]),
         (1, [Cell.str "a", Cell.num 1, Cell.str "p"])]) rfl rfl).1,
    (c5_outputs_row_subsets.1
      (DFrame.mk ["txn_date", "txn_amount", "txn_description"]
        [(0, [Cell.str "a", Cell.num 1, Cell.str "p"]),
         (1, [Cell.str "a", Cell.num 1, Cell.str "p"]),
         (2, [Cell.str "b", Cell.num 2, Cell.str "q"])])
      (DFrame.mk ["txn_date", "txn_amount", "txn_description"]
        [(0, [Cell.str "a", Cell.num 1, Cell.str "p"]),
         (1, [Cell.str "a", Cell.num 1, Cell.str "p"])]) rfl rfl).2⟩

/-- Counterexample to C5 as stated: on two non-empty tables the first output of
`find_unmatched_entries` carries an extra `_source` column, so it is not a
row-subset with the same column set of either input. -/
theorem c5_counterexample :
    find_unmatched_entries
        (DFrame.mk ["txn_date", "txn_amount", "txn_description"]
          [(0, [Cell.str "d1", Cell.num 1, Cell.str "x"])])
        (DFrame.mk ["txn_date", "txn_amount", "txn_description"]
          [(0, [Cell.str "d2", Cell.num 2, Cell.str "y"])])
      = Except.ok
          (DFrame.mk ["txn_date", "txn_amount", "txn_description", "_source"]
            [(0, [Cell.str "d1", Cell.num 1, Cell.str "x", Cell.str "df1"])],
           DFrame.mk ["txn_date", "txn_amount", "txn_description", "_source"]
            [(0, [Cell.str "d2", Cell.num 2, Cell.str "y", Cell.str "df2"])])
    ∧ ["txn_date", "txn_amount", "txn_description", "_source"]
        ≠ ["txn_date", "txn_amount", "txn_description"] :=
  ⟨rfl, by decide⟩

/-! ## Claim C9 -/

/-- C9 (amended): on a non-empty table, `detect_duplicates` with a missing key
column and `detect_outliers_zscore` with a missing value column fail
immediately with an error naming the offending column(s), with no partial
result; `find_unmatched_entries`, however, fails only when a key column is
missing from the *union* of the two tables' columns (pandas `concat` fills a
column missing from one side with nulls); and zero variance is not an error:
the z-score detector returns an empty (no-outlier) result. -/
theorem c9_error_semantics :
    (∀ df, df.isEmpty = false → missingKeyCols df.cols ≠ [] →
      detect_duplicates df = Except.error
        ("KeyError: " ++ String.intercalate ", " (missingKeyCols df.cols))) ∧
    (∀ df c t, df.isEmpty = false → df.cols.contains c = false →
      detect_outliers_zscore df c t = Except.error ("KeyError: " ++ c)) ∧
    (∀ d1 d2, d1.isEmpty = false → d2.isEmpty = false →
      missingKeyCols (unionCols d1.cols d2.cols) ≠ [] →
      find_unmatched_entries d1 d2 = Except.error
        ("KeyError: " ++ String.intercalate ", " (missingKeyCols (unionCols d1.cols d2.cols)))) ∧
    (∀ df c t, df.cols.contains c = true →
      (∀ cl ∈ cellsOf df c, cl.isStr = false) →
      sampleVar (numVals (cellsOf df c)) = some 0 →
      ∃ out, detect_outliers_zscore df c t = Except.ok out ∧ out.rows = []) := by
  refine ⟨?_, ?_, ?_, ?_⟩
  · intro df he hm
    have hne : (missingKeyCols df.cols).isEmpty = false := by
      cases hx : missingKeyCols df.cols with
      | nil => exact absurd hx hm
      | cons a l => rfl
    simp only [detect_duplicates, he, Bool.false_eq_true, if_false,
      duplicatedMask, hne]
  · intro df c t he hc
    have hcc : colCells df c = none := by
      unfold colCells
      rw [hc]
      rfl
    simp only [detect_outliers_zscore, he, Bool.false_eq_true, if_false, hcc]
  · intro d1 d2 h1 h2 hm
    exact find_unmatched_error_spec d1 d2 h1 h2 hm
  · intro df c t hc hstr hv
    cases he : df.isEmpty with
    | true => exact ⟨emptyDF, by simp [detect_outliers_zscore, he], rfl⟩
    | false =>
      have hcol : colCells df c = some (cellsOf df c) := by
        unfold colCells
        rw [if_pos hc]
        rfl
      have hany : (cellsOf df c).any Cell.isStr = false := by
        rw [List.any_eq_false]
        intro cl hcl
        rw [hstr cl hcl]
        simp
      have hmaskfalse : ∀ b ∈ (cellsOf df c).map fun cl =>
          cellOutlier cl (mean (numVals (cellsOf df c))) (sampleVar (numVals (cellsOf df c))) t,
          b = false := by
        intro b hb
        obtain ⟨cl, hcl, rfl⟩ := List.mem_map.mp hb
        cases cl with
        | str s => exact absurd (hstr _ hcl) (by simp [Cell.isStr])
        | na => rfl
        | num q =>
          have hqmem : q ∈ numVals (cellsOf df c) :=
            List.mem_filterMap.mpr ⟨Cell.num q, hcl, rfl⟩
          have hqμ : q = mean (numVals (cellsOf df c)) :=
            sampleVar_eq_zero_all_mean _ hv q hqmem
          show zExceeds q (mean (numVals (cellsOf df c)))
            (sampleVar (numVals (cellsOf df c))) t = false
          rw [hv]
          simp [zExceeds, hqμ]
      refine ⟨filterMask df ((cellsOf df c).map fun cl =>
          cellOutlier cl (mean (numVals (cellsOf df c)))
            (sampleVar (numVals (cellsOf df c))) t), ?_, ?_⟩
      · simp [detect_outliers_zscore, he, hcol, hany]
      · exact maskFilter_false _ _ hmaskfalse

/-- Witness for C9 (amended): a non-empty table missing `txn_date` makes the
duplicate detector fail naming `txn_date`; a non-empty table without column
`zzz` makes the z-score detector fail naming `zzz`; a constant column is not an
error. -/
theorem c9_witness :
    detect_duplicates (DFrame.mk ["txn_amount", "txn_description"]
        [(0, [Cell.num 1, Cell.str "x"])])
      = Except.error ("KeyError: " ++ String.intercalate ", " ["txn_date"]) ∧
    detect_outliers_zscore (DFrame.mk ["txn_amount"] [(0, [Cell.num 1])]) "zzz" 3
      = Except.error ("KeyError: " ++ "zzz") ∧
    ∃ out, detect_outliers_zscore
        (DFrame.mk ["txn_amount"] [(0, [Cell.num 7]), (1, [Cell.num 7])]) "txn_amount" 3
      = Except.ok out ∧ out.rows = [] := by
  refine ⟨?_, ?_, ?_⟩
  · have h := c9_error_semantics.1 (DFrame.mk ["txn_amount", "txn_description"]
        [(0, [Cell.num 1, Cell.str "x"])]) (by decide) (by decide)
    exact h
  · exact c9_error_semantics.2.1 (DFrame.mk ["txn_amount"] [(0, [Cell.num 1])]) "zzz" 3
      (by decide) (by decide)
  · refine c9_error_semantics.2.2.2 (DFrame.mk ["txn_amount"]
      [(0, [Cell.num 7]), (1, [Cell.num 7])]) "txn_amount" 3
      (by decide) (by decide) ?_
    rw [show numVals (cellsOf (DFrame.mk ["txn_amount"]
        [(0, [Cell.num 7]), (1, [Cell.num 7])]) "txn_amount")
      = List.replicate 2 (7 : ℚ) from rfl]
    exact sampleVar_replicate 2 7 (by norm_num)

/-- Counterexample to C9 as stated: a non-empty table missing the required key
column `txn_date` passed as first argument to `find_unmatched_entries` does
*not* make the call fail — `pd.concat` supplies the column (null-filled) from
the other table, and the call succeeds. -/
theorem c9_counterexample :
    (DFrame.mk ["txn_amount", "txn_description"]
      [(0, [Cell.num 1, Cell.str "x"])]).isEmpty = false ∧
    missingKeyCols ["txn_amount", "txn_description"] ≠ [] ∧
    find_unmatched_entries
        (DFrame.mk ["txn_amount", "txn_description"] [(0, [Cell.num 1, Cell.str "x"])])
        (DFrame.mk ["txn_date", "txn_amount", "txn_description"]
          [(0, [Cell.str "d2", Cell.num 2, Cell.str "y"])])
      = Except.ok
          (DFrame.mk ["txn_amount", "txn_description", "_source"]
            [(0, [Cell.num 1, Cell.str "x", Cell.str "df1"])],
           DFrame.mk ["txn_date", "txn_amount", "txn_description", "_source"]
            [(0, [Cell.str "d2", Cell.num 2, Cell.str "y", Cell.str "df2"])]) :=
  ⟨rfl, by decide, rfl⟩

/-! ## Claim C3 -/

theorem isEmpty_false_of_contains (df : DFrame) (c : String)
    (hr : df.rows ≠ []) (hc : df.cols.contains c = true) : df.isEmpty = false := by
  unfold DFrame.isEmpty
  have h1 : df.rows.isEmpty = false := by
    cases hx : df.rows with
    | nil => exact absurd hx hr
    | cons a l => rfl
  have h2 : df.cols.isEmpty = false := by
    cases hx : df.cols with
    | nil => rw [hx] at hc; cases hc
    | cons a l => rfl
  rw [h1, h2]
  rfl

/-- The embedded comparison `abs((x - μ)/σ) > t` agrees, for positive variance
`v`, with the real-number formula of the specification, `|x − μ| / √v > t`. -/
theorem zExceeds_iff_real (x μ v t : ℚ) (hv : 0 < v) :
    zExceeds x μ (some v) t = true ↔
      (t : ℝ) < |(x : ℝ) - (μ : ℝ)| / Real.sqrt (v : ℝ) := by
  have hvne : v ≠ 0 := ne_of_gt hv
  have hvR : (0 : ℝ) < (v : ℝ) := by exact_mod_cast hv
  have hs : 0 < Real.sqrt (v : ℝ) := Real.sqrt_pos.mpr hvR
  have hsq : Real.sqrt (v : ℝ) ^ 2 = (v : ℝ) := Real.sq_sqrt (le_of_lt hvR)
  simp only [zExceeds, if_neg hvne, Bool.or_eq_true, decide_eq_true_eq]
  rw [lt_div_iff₀ hs]
  constructor
  · rintro (ht | hgt)
    · have htR : (t : ℝ) < 0 := by exact_mod_cast ht
      have hneg : (t : ℝ) * Real.sqrt (v : ℝ) < 0 := mul_neg_of_neg_of_pos htR hs
      linarith [abs_nonneg ((x : ℝ) - (μ : ℝ))]
    · have hgtR : (t : ℝ) ^ 2 * (v : ℝ) < ((x : ℝ) - (μ : ℝ)) ^ 2 := by exact_mod_cast hgt
      by_cases htR : (t : ℝ) < 0
      · have hneg : (t : ℝ) * Real.sqrt (v : ℝ) < 0 := mul_neg_of_neg_of_pos htR hs
        linarith [abs_nonneg ((x : ℝ) - (μ : ℝ))]
      · push_neg at htR
        nlinarith [sq_abs ((x : ℝ) - (μ : ℝ)), abs_nonneg ((x : ℝ) - (μ : ℝ)),
          mul_nonneg htR hs.le, hsq]
  · intro hR
    by_cases ht : t < 0
    · exact Or.inl ht
    · right
      push_neg at ht
      have htR : (0 : ℝ) ≤ (t : ℝ) := by exact_mod_cast ht
      have key : (t : ℝ) ^ 2 * (v : ℝ) < ((x : ℝ) - (μ : ℝ)) ^ 2 := by
        nlinarith [sq_abs ((x : ℝ) - (μ : ℝ)), abs_nonneg ((x : ℝ) - (μ : ℝ)),
          mul_nonneg htR hs.le, hsq]
      exact_mod_cast key

/-- C3: on a non-empty table whose value column has no missing values and whose
sample standard deviation is defined and nonzero, `detect_outliers_zscore`
succeeds and returns exactly the rows whose value `x` satisfies
`|x − μ| / σ > t` over the reals, with `μ` the mean and `σ = √v` the sample
standard deviation of the column. -/
theorem c3_zscore_flags_exactly_threshold_exceeders (df : DFrame) (c : String) (t v : ℚ)
    (hne : df.rows ≠ [])
    (hc : df.cols.contains c = true)
    (hnum : ∀ cl ∈ cellsOf df c, ∃ q : ℚ, cl = Cell.num q)
    (hv : sampleVar (numVals (cellsOf df c)) = some v)
    (hv0 : v ≠ 0) :
    ∃ out, detect_outliers_zscore df c t = Except.ok out ∧
      out.rows = df.rows.filter (fun r =>
        cellOutlier (cellAt df c r) (mean (numVals (cellsOf df c))) (some v) t) ∧
      (∀ x : ℚ, zExceeds x (mean (numVals (cellsOf df c))) (some v) t = true ↔
        (t : ℝ) < |(x : ℝ) - ((mean (numVals (cellsOf df c)) : ℚ) : ℝ)|
          / Real.sqrt ((v : ℚ) : ℝ)) := by
  have hvpos : 0 < v := lt_of_le_of_ne (sampleVar_nonneg _ v hv) (Ne.symm hv0)
  have he : df.isEmpty = false := isEmpty_false_of_contains df c hne hc
  have hcol : colCells df c = some (cellsOf df c) := by
    unfold colCells
    rw [if_pos hc]
    rfl
  have hany : (cellsOf df c).any Cell.isStr = false := by
    rw [List.any_eq_false]
    intro cl hcl
    obtain ⟨q, rfl⟩ := hnum cl hcl
    simp [Cell.isStr]
  refine ⟨filterMask df ((cellsOf df c).map fun cl =>
      cellOutlier cl (mean (numVals (cellsOf df c)))
        (sampleVar (numVals (cellsOf df c))) t), ?_, ?_, ?_⟩
  · simp [detect_outliers_zscore, he, hcol, hany]
  · show maskFilter df.rows _ = _
    rw [hv]
    unfold cellsOf
    rw [List.map_map]
    exact maskFilter_map_self df.rows _
  · intro x
    exact zExceeds_iff_real x _ v t hvpos

/-- Witness for C3: values `[1, 1, 1, 5]`, threshold 1; mean 2, sample variance
4 (σ = 2); exactly the row valued 5 (z-score 1.5) is flagged. -/
theorem c3_witness :
    ∃ out, detect_outliers_zscore
        (DFrame.mk ["txn_amount"]
          [(0, [Cell.num 1]), (1, [Cell.num 1]), (2, [Cell.num 1]), (3, [Cell.num 5])])
        "txn_amount" 1
      = Except.ok out ∧
      out.rows = (DFrame.mk ["txn_amount"]
          [(0, [Cell.num 1]), (1, [Cell.num 1]), (2, [Cell.num 1]), (3, [Cell.num 5])]).rows.filter
        (fun r => cellOutlier
          (cellAt (DFrame.mk ["txn_amount"]
            [(0, [Cell.num 1]), (1, [Cell.num 1]), (2, [Cell.num 1]), (3, [Cell.num 5])])
            "txn_amount" r)
          (mean (numVals (cellsOf (DFrame.mk ["txn_amount"]
            [(0, [Cell.num 1]), (1, [Cell.num 1]), (2, [Cell.num 1]), (3, [Cell.num 5])])
            "txn_amount")))
          (some 4) 1) ∧
      (∀ x : ℚ, zExceeds x
          (mean (numVals (cellsOf (DFrame.mk ["txn_amount"]
            [(0, [Cell.num 1]), (1, [Cell.num 1]), (2, [Cell.num 1]), (3, [Cell.num 5])])
            "txn_amount")))
          (some 4) 1 = true ↔
        (((1 : ℚ)) : ℝ) < |(x : ℝ) - ((mean (numVals (cellsOf (DFrame.mk ["txn_amount"]
            [(0, [Cell.num 1]), (1, [Cell.num 1]), (2, [Cell.num 1]), (3, [Cell.num 5])])
            "txn_amount")) : ℚ) : ℝ)| / Real.sqrt ((4 : ℚ) : ℝ)) := by
  refine c3_zscore_flags_exactly_threshold_exceeders
      (DFrame.mk ["txn_amount"]
        [(0, [Cell.num 1]), (1, [Cell.num 1]), (2, [Cell.num 1]), (3, [Cell.num 5])])
      "txn_amount" 1 4 (by decide) (by decide) ?_ ?_ (by decide)
  · intro cl hcl
    rw [show cellsOf (DFrame.mk ["txn_amount"]
        [(0, [Cell.num 1]), (1, [Cell.num 1]), (2, [Cell.num 1]), (3, [Cell.num 5])])
        "txn_amount"
      = [Cell.num 1, Cell.num 1, Cell.num 1, Cell.num 5] from rfl] at hcl
    simp only [List.mem_cons, List.not_mem_nil, or_false] at hcl
    rcases hcl with rfl | rfl | rfl | rfl
    · exact ⟨1, rfl⟩
    · exact ⟨1, rfl⟩
    · exact ⟨1, rfl⟩
    · exact ⟨5, rfl⟩
  · rw [show numVals (cellsOf (DFrame.mk ["txn_amount"]
        [(0, [Cell.num 1]), (1, [Cell.num 1]), (2, [Cell.num 1]), (3, [Cell.num 5])])
        "txn_amount")
      = [(1 : ℚ), 1, 1, 5] from rfl]
    norm_num [sampleVar, mean]

/-! ## Claim C8 -/

theorem map_f_filter (l : List α) (f : α → β) (p : β → Bool) :
    (l.filter fun a => p (f a)).map f = (l.map f).filter p := by
  induction l with
  | nil => rfl
  | cons a l ih => cases h : p (f a) <;> simp [List.filter_cons, h, ih]

theorem numVals_filter_not_na (cells : List Cell) :
    numVals (cells.filter fun cl => !(cl == Cell.na)) = numVals cells := by
  induction cells with
  | nil => rfl
  | cons a l ih =>
    cases a <;> simp [numVals, List.filter_cons, List.filterMap_cons] at * <;> rw [← ih]

theorem any_isStr_filter_not_na (cells : List Cell) :
    ((cells.filter fun cl => !(cl == Cell.na)).any Cell.isStr) = cells.any Cell.isStr := by
  induction cells with
  | nil => rfl
  | cons a l ih =>
    cases a <;> simp [List.filter_cons, List.any_cons, Cell.isStr] at * <;> rw [ih]

/-- C8: rows with a missing value in the value column are excluded both from
the mean/standard-deviation computation and from the output: the detector
returns the same rows (same index labels, same cells) on a table and on the
same table with its missing-value rows dropped, and the same error when it
errs. -/
theorem c8_missing_values_excluded (df : DFrame) (c : String) (t : ℚ)
    (hc : df.cols.contains c = true) :
    (detect_outliers_zscore df c t).map (fun o => o.rows)
      = (detect_outliers_zscore (dropNaRows df c) c t).map (fun o => o.rows) := by
  have hcells' : cellsOf (dropNaRows df c) c
      = (cellsOf df c).filter fun cl => !(cl == Cell.na) :=
    map_f_filter df.rows (cellAt df c) (fun cl => !(cl == Cell.na))
  by_cases hr : df.rows = []
  · have he : df.isEmpty = true := by simp [DFrame.isEmpty, hr]
    have he' : (dropNaRows df c).isEmpty = true := by
      simp [DFrame.isEmpty, dropNaRows, hr]
    simp [detect_outliers_zscore, he, he']
  · have he : df.isEmpty = false := isEmpty_false_of_contains df c hr hc
    have hcolL : colCells df c = some (cellsOf df c) := by
      unfold colCells
      rw [if_pos hc]
      rfl
    have hcolR : colCells (dropNaRows df c) c = some (cellsOf (dropNaRows df c) c) := by
      have hc' : (dropNaRows df c).cols.contains c = true := hc
      unfold colCells
      rw [if_pos hc']
      rfl
    by_cases hr' : (df.rows.filter fun r => !(cellAt df c r == Cell.na)) = []
    · have hallna : ∀ cl ∈ cellsOf df c, cl = Cell.na := by
        intro cl hcl
        obtain ⟨r, hrmem, rfl⟩ := List.mem_map.mp hcl
        by_contra hne
        have hpr : (!(cellAt df c r == Cell.na)) = true := by
          cases hx : cellAt df c r == Cell.na with
          | true => exact absurd (eq_of_beq hx) hne
          | false => rfl
        have : r ∈ df.rows.filter fun r => !(cellAt df c r == Cell.na) :=
          List.mem_filter.mpr ⟨hrmem, hpr⟩
        rw [hr'] at this
        cases this
      have hany : (cellsOf df c).any Cell.isStr = false := by
        rw [List.any_eq_false]
        intro cl hcl
        rw [hallna cl hcl]
        simp [Cell.isStr]
      have hmaskfalse : ∀ b ∈ (cellsOf df c).map fun cl =>
          cellOutlier cl (mean (numVals (cellsOf df c)))
            (sampleVar (numVals (cellsOf df c))) t, b = false := by
        intro b hb
        obtain ⟨cl, hcl, rfl⟩ := List.mem_map.mp hb
        rw [hallna cl hcl]
        rfl
      have he' : (dropNaRows df c).isEmpty = true := by
        simp [DFrame.isEmpty, dropNaRows, hr']
      have hL : detect_outliers_zscore df c t
          = Except.ok (filterMask df ((cellsOf df c).map fun cl =>
              cellOutlier cl (mean (numVals (cellsOf df c)))
                (sampleVar (numVals (cellsOf df c))) t)) := by
        simp [detect_outliers_zscore, he, hcolL, hany]
      have hR : detect_outliers_zscore (dropNaRows df c) c t = Except.ok emptyDF := by
        simp [detect_outliers_zscore, he']
      rw [hL, hR]
      simp only [Except.map]
      exact congrArg Except.ok (maskFilter_false _ _ hmaskfalse)
    · have he' : (dropNaRows df c).isEmpty = false :=
        isEmpty_false_of_contains (dropNaRows df c) c hr' hc
      have hanyEq : (cellsOf (dropNaRows df c) c).any Cell.isStr
          = (cellsOf df c).any Cell.isStr := by
        rw [hcells']
        exact any_isStr_filter_not_na _
      cases hs : (cellsOf df c).any Cell.isStr with
      | true =>
        have hanyR : (cellsOf (dropNaRows df c) c).any Cell.isStr = true := by
          rw [hanyEq, hs]
        simp [detect_outliers_zscore, he, he', hcolL, hcolR, hs, hanyR]
      | false =>
        have hanyR : (cellsOf (dropNaRows df c) c).any Cell.isStr = false := by
          rw [hanyEq, hs]
        have hvals : numVals (cellsOf (dropNaRows df c) c) = numVals (cellsOf df c) := by
          rw [hcells']
          exact numVals_filter_not_na _
        have hL : detect_outliers_zscore df c t
            = Except.ok (filterMask df ((cellsOf df c).map fun cl =>
                cellOutlier cl (mean (numVals (cellsOf df c)))
                  (sampleVar (numVals (cellsOf df c))) t)) := by
          simp [detect_outliers_zscore, he, hcolL, hs]
        have hR : detect_outliers_zscore (dropNaRows df c) c t
            = Except.ok (filterMask (dropNaRows df c)
                ((cellsOf (dropNaRows df c) c).map fun cl =>
                  cellOutlier cl (mean (numVals (cellsOf (dropNaRows df c) c)))
                    (sampleVar (numVals (cellsOf (dropNaRows df c) c))) t)) := by
          simp [detect_outliers_zscore, he', hcolR, hanyR]
        rw [hL, hR]
        simp only [Except.map]
        refine congrArg Except.ok ?_
        show maskFilter df.rows _ = maskFilter (dropNaRows df c).rows _
        rw [hvals, hcells']
        have hmapL : ((cellsOf df c).map fun cl =>
            cellOutlier cl (mean (numVals (cellsOf df c)))
              (sampleVar (numVals (cellsOf df c))) t)
            = df.rows.map fun r => cellOutlier (cellAt df c r)
                (mean (numVals (cellsOf df c))) (sampleVar (numVals (cellsOf df c))) t := by
          unfold cellsOf
          rw [List.map_map]
          rfl
        have hmapR : (((cellsOf df c).filter fun cl => !(cl == Cell.na)).map fun cl =>
            cellOutlier cl (mean (numVals (cellsOf df c)))
              (sampleVar (numVals (cellsOf df c))) t)
            = (df.rows.filter fun r => !(cellAt df c r == Cell.na)).map
                fun r => cellOutlier (cellAt df c r)
                  (mean (numVals (cellsOf df c))) (sampleVar (numVals (cellsOf df c))) t := by
          rw [← hcells']
          show ((df.rows.filter _).map (cellAt df c)).map _ = _
          rw [List.map_map]
          rfl
        have hrows' : (dropNaRows df c).rows
            = df.rows.filter fun r => !(cellAt df c r == Cell.na) := rfl
        rw [hrows', hmapL, hmapR, maskFilter_map_self, maskFilter_map_self]
        show df.rows.filter _ = (df.rows.filter _).filter _
        rw [List.filter_filter]
        refine (List.filter_congr fun r _ => ?_)
        cases hcell : cellAt df c r with
        | na => rfl
        | str s => rfl
        | num q => simp

/-- Witness for C8: a table with one missing value among `[1000, NaN, 900]`;
the detector returns the same rows as on the table with the `NaN` row dropped. -/
theorem c8_witness :
    (DFrame.mk ["txn_amount"]
      [(0, [Cell.num 1000]), (1, [Cell.na]), (2, [Cell.num 900])]).cols.contains
        "txn_amount" = true ∧
    (detect_outliers_zscore
        (DFrame.mk ["txn_amount"]
          [(0, [Cell.num 1000]), (1, [Cell.na]), (2, [Cell.num 900])])
        "txn_amount" 3).map (fun o => o.rows)
      = (detect_outliers_zscore
          (dropNaRows (DFrame.mk ["txn_amount"]
            [(0, [Cell.num 1000]), (1, [Cell.na]), (2, [Cell.num 900])]) "txn_amount")
          "txn_amount" 3).map (fun o => o.rows) :=
  ⟨by decide, c8_missing_values_excluded _ "txn_amount" 3 (by decide)⟩

/-! ## Claim C10 -/

theorem map_maskFilter (f : α → β) (l : List α) (m : List Bool) :
    (maskFilter l m).map f = maskFilter (l.map f) m := by
  induction l generalizing m with
  | nil => simp [maskFilter]
  | cons a l ih =>
    cases m with
    | nil => simp [maskFilter]
    | cons b m =>
      cases b <;> simp [maskFilter, List.zip_cons_cons, List.filterMap_cons] at * <;>
        exact ih m

theorem frameLabels_dropLabels (df : DFrame) (L : List Nat) :
    frameLabels (dropLabels df L) = (frameLabels df).filter fun n => !L.contains n := by
  show (df.rows.filter fun r => !L.contains r.1).map Prod.fst
    = (df.rows.map Prod.fst).filter fun n => !L.contains n
  exact map_fst_filter_fst df.rows (fun n => !L.contains n)

theorem frameLabels_filterMask (df : DFrame) (m : List Bool) :
    frameLabels (filterMask df m) = maskFilter (frameLabels df) m := by
  show (maskFilter df.rows m).map Prod.fst = _
  exact map_maskFilter Prod.fst df.rows m

/-- C10: both the duplicate detector and the unmatched-entry finder consult
exactly the fixed key columns `txn_date`, `txn_amount`, `txn_description` (no
key parameter exists): two input tables (or pairs of tables) with the same
index labels and the same key tuples, row for row, are flagged at exactly the
same rows — every other column is irrelevant to the selection. -/
theorem c10_only_key_columns_matter (A A' B B' : DFrame)
    (hwA : A.WF) (hwA' : A'.WF) (hwB : B.WF) (hwB' : B'.WF)
    (hkA : missingKeyCols A.cols = []) (hkA' : missingKeyCols A'.cols = [])
    (hkB : missingKeyCols B.cols = []) (hkB' : missingKeyCols B'.cols = [])
    (hlabA : frameLabels A = frameLabels A') (hkeyA : frameKeys A = frameKeys A')
    (hlabB : frameLabels B = frameLabels B') (hkeyB : frameKeys B = frameKeys B') :
    (detect_duplicates A).map (fun o => frameLabels o)
      = (detect_duplicates A').map (fun o => frameLabels o) ∧
    (find_unmatched_entries A B).map (fun p => (frameLabels p.1, frameLabels p.2))
      = (find_unmatched_entries A' B').map (fun p => (frameLabels p.1, frameLabels p.2)) := by
  have hlenA : A.rows.length = A'.rows.length := by
    have h := congrArg List.length hlabA
    rwa [frameLabels_length, frameLabels_length] at h
  have hlenB : B.rows.length = B'.rows.length := by
    have h := congrArg List.length hlabB
    rwa [frameLabels_length, frameLabels_length] at h
  have hrowsEmpty : ∀ (X Y : DFrame), X.rows.length = Y.rows.length →
      X.rows.isEmpty = Y.rows.isEmpty := by
    intro X Y hlen
    cases ha : X.rows with
    | nil =>
      cases ha' : Y.rows with
      | nil => rfl
      | cons y ys => rw [ha, ha'] at hlen; simp at hlen
    | cons x xs =>
      cases ha' : Y.rows with
      | nil => rw [ha, ha'] at hlen; simp at hlen
      | cons y ys => rfl
  have hcolsNE : ∀ X : DFrame, missingKeyCols X.cols = [] → X.cols.isEmpty = false := by
    intro X hk
    have hdate : "txn_date" ∈ X.cols :=
      (missingKeyCols_eq_nil_iff X.cols).mp hk "txn_date" (by decide)
    cases hx : X.cols with
    | nil => rw [hx] at hdate; cases hdate
    | cons a l => rfl
  have heA : A.isEmpty = A'.isEmpty := by
    unfold DFrame.isEmpty
    rw [hrowsEmpty A A' hlenA, hcolsNE A hkA, hcolsNE A' hkA']
  have heB : B.isEmpty = B'.isEmpty := by
    unfold DFrame.isEmpty
    rw [hrowsEmpty B B' hlenB, hcolsNE B hkB, hcolsNE B' hkB']
  constructor
  · cases heAv : A.isEmpty with
    | true =>
      have heAv' : A'.isEmpty = true := by rw [← heA, heAv]
      simp [detect_duplicates, heAv, heAv']
    | false =>
      have heAv' : A'.isEmpty = false := by rw [← heA, heAv]
      have hmA : duplicatedMask A = Except.ok (dupKeyMask (frameKeys A)) := by
        unfold duplicatedMask
        rw [hkA]
        rfl
      have hmA' : duplicatedMask A' = Except.ok (dupKeyMask (frameKeys A')) := by
        unfold duplicatedMask
        rw [hkA']
        rfl
      have hdA : detect_duplicates A = Except.ok (filterMask A (dupKeyMask (frameKeys A))) := by
        simp [detect_duplicates, heAv, hmA]
      have hdA' : detect_duplicates A'
          = Except.ok (filterMask A' (dupKeyMask (frameKeys A'))) := by
        simp [detect_duplicates, heAv', hmA']
      rw [hdA, hdA']
      simp only [Except.map]
      rw [frameLabels_filterMask, frameLabels_filterMask, hlabA, hkeyA]
  · cases hE : (A.isEmpty || B.isEmpty) with
    | true =>
      have hE' : (A'.isEmpty || B'.isEmpty) = true := by rw [← heA, ← heB, hE]
      rw [find_unmatched_empty A B hE, find_unmatched_empty A' B' hE']
    | false =>
      have h1 : A.isEmpty = false := by
        cases hx : A.isEmpty with
        | false => rfl
        | true => rw [hx] at hE; simp at hE
      have h2 : B.isEmpty = false := by
        cases hx : B.isEmpty with
        | false => rfl
        | true => rw [hx] at hE; simp at hE
      have h1' : A'.isEmpty = false := by rw [← heA]; exact h1
      have h2' : B'.isEmpty = false := by rw [← heB]; exact h2
      have hmAB : missingKeyCols (unionCols A.cols B.cols) = [] := by
        rw [missingKeyCols_eq_nil_iff]
        intro k hk
        exact (mem_unionCols _ _ k).mpr
          (Or.inl ((missingKeyCols_eq_nil_iff A.cols).mp hkA k hk))
      have hmAB' : missingKeyCols (unionCols A'.cols B'.cols) = [] := by
        rw [missingKeyCols_eq_nil_iff]
        intro k hk
        exact (mem_unionCols _ _ k).mpr
          (Or.inl ((missingKeyCols_eq_nil_iff A'.cols).mp hkA' k hk))
      rw [find_unmatched_ok_spec A B h1 h2 hwA hwB hmAB,
          find_unmatched_ok_spec A' B' h1' h2' hwA' hwB' hmAB']
      simp only [Except.map]
      have hdup : dupLabelsOf A B = dupLabelsOf A' B' := by
        unfold dupLabelsOf
        rw [hlabA, hlabB, hkeyA, hkeyB]
      rw [frameLabels_dropLabels, frameLabels_dropLabels, frameLabels_dropLabels,
          frameLabels_dropLabels, frameLabels_setCol, frameLabels_setCol,
          frameLabels_setCol, frameLabels_setCol, hdup, hlabA, hlabB]

/-- Witness for C10: tables that agree on the key columns but differ in an
extra `note` column (and even in their non-key column sets) are flagged
identically. -/
theorem c10_witness :
    frameKeys (DFrame.mk ["txn_date", "txn_amount", "txn_description", "note"]
        [(0, [Cell.str "a", Cell.num 1, Cell.str "p", Cell.num 10]),
         (1, [Cell.str "a", Cell.num 1, Cell.str "p", Cell.num 11])])
      = frameKeys (DFrame.mk ["txn_date", "txn_amount", "txn_description", "note"]
        [(0, [Cell.str "a", Cell.num 1, Cell.str "p", Cell.num 20]),
         (1, [Cell.str "a", Cell.num 1, Cell.str "p", Cell.num 21])]) ∧
    (detect_duplicates (DFrame.mk ["txn_date", "txn_amount", "txn_description", "note"]
        [(0, [Cell.str "a", Cell.num 1, Cell.str "p", Cell.num 10]),
         (1, [Cell.str "a", Cell.num 1, Cell.str "p", Cell.num 11])])).map
        (fun o => frameLabels o)
      = (detect_duplicates (DFrame.mk ["txn_date", "txn_amount", "txn_description", "note"]
        [(0, [Cell.str "a", Cell.num 1, Cell.str "p", Cell.num 20]),
         (1, [Cell.str "a", Cell.num 1, Cell.str "p", Cell.num 21])])).map
        (fun o => frameLabels o) ∧
    (find_unmatched_entries
        (DFrame.mk ["txn_date", "txn_amount", "txn_description", "note"]
          [(0, [Cell.str "a", Cell.num 1, Cell.str "p", Cell.num 10]),
           (1, [Cell.str "a", Cell.num 1, Cell.str "p", Cell.num 11])])
        (DFrame.mk ["txn_date", "txn_amount", "txn_description"]
          [(0, [Cell.str "b", Cell.num 2, Cell.str "q"])])).map
        (fun p => (frameLabels p.1, frameLabels p.2))
      = (find_unmatched_entries
        (DFrame.mk ["txn_date", "txn_amount", "txn_description", "note"]
          [(0, [Cell.str "a", Cell.num 1, Cell.str "p", Cell.num 20]),
           (1, [Cell.str "a", Cell.num 1, Cell.str "p", Cell.num 21])])
        (DFrame.mk ["txn_date", "txn_amount", "txn_description", "memo"]
          [(0, [Cell.str "b", Cell.num 2, Cell.str "q", Cell.str "m"])])).map
        (fun p => (frameLabels p.1, frameLabels p.2)) := by
  have h := c10_only_key_columns_matter
    (DFrame.mk ["txn_date", "txn_amount", "txn_description", "note"]
      [(0, [Cell.str "a", Cell.num 1, Cell.str "p", Cell.num 10]),
       (1, [Cell.str "a", Cell.num 1, Cell.str "p", Cell.num 11])])
    (DFrame.mk ["txn_date", "txn_amount", "txn_description", "note"]
      [(0, [Cell.str "a", Cell.num 1, Cell.str "p", Cell.num 20]),
       (1, [Cell.str "a", Cell.num 1, Cell.str "p", Cell.num 21])])
    (DFrame.mk ["txn_date", "txn_amount", "txn_description"]
      [(0, [Cell.str "b", Cell.num 2, Cell.str "q"])])
    (DFrame.mk ["txn_date", "txn_amount", "txn_description", "memo"]
      [(0, [Cell.str "b", Cell.num 2, Cell.str "q", Cell.str "m"])])
    (by decide) (by decide) (by decide) (by decide)
    (by decide) (by decide) (by decide) (by decide)
    (by decide) (by decide) (by decide) (by decide)
  exact ⟨by decide, h.1, h.2⟩

end AnomalyDetection
